import Mathlib

/-!
Shallow embedding of the literacy-assessment orchestration core of the
repository (examples/literacy_assessment/src: models.py, questions.py,
s3_uploader.py, kb_tools.py).

Python strings are modelled as lists of characters (`Str`); every function is
defined by structural recursion so that each definition evaluates inside the
kernel on concrete inputs.
-/

/-- Python strings are modelled as lists of characters. -/
abbrev Str := List Char

/-- A Lean string literal viewed as a `Str`. -/
def str (s : String) : Str := s.toList

/-- Python `str.lower` (ASCII behaviour). -/
def lowerStr (s : Str) : Str := s.map Char.toLower

/-- Python `str.strip()`: drop whitespace from both ends. -/
def trimStr (s : Str) : Str :=
  ((s.dropWhile Char.isWhitespace).reverse.dropWhile Char.isWhitespace).reverse

/-- Python `hay.startswith(needle)`, first argument the needle. -/
def beginsWith : Str → Str → Bool
  | [], _ => true
  | _ :: _, [] => false
  | a :: as, b :: bs => (a == b) && beginsWith as bs

/-- Python `needle in hay` (substring occurrence). -/
def occursIn (needle : Str) : Str → Bool
  | [] => beginsWith needle []
  | c :: rest => beginsWith needle (c :: rest) || occursIn needle rest

/-- Helper for `splitWs`: accumulates the current (reversed) word. -/
def splitWsAux (acc : Str) : Str → List Str
  | [] => if acc = [] then [] else [acc.reverse]
  | c :: rest =>
    if c.isWhitespace then
      if acc = [] then splitWsAux [] rest else acc.reverse :: splitWsAux [] rest
    else splitWsAux (c :: acc) rest

/-- Python `str.split()` with no argument: split on whitespace runs, dropping
empty pieces. -/
def splitWs (s : Str) : List Str := splitWsAux [] s

/-- Python `str.isdigit()` on ASCII text: nonempty and all digits. -/
def pyIsDigit (s : Str) : Bool := !s.isEmpty && s.all Char.isDigit

/-- Python `int(s)` on an all-digit string. -/
def natOfDigits (s : Str) : Nat := s.foldl (fun n c => 10 * n + (c.toNat - 48)) 0

/-- `experience_level` values of `UserBackgroundProfile` (models.py). -/
inductive ExperienceLevel
  | beginner
  | intermediate
  | advanced
  | expert
deriving DecidableEq

/-- `UserBackgroundProfile` (models.py). `years_experience` carries pydantic's
`ge=0` as a check at validation points, so it is an `Option Int`. -/
structure UserBackgroundProfile where
  background_text : Str
  experience_level : ExperienceLevel
  domain : Option Str
  years_experience : Option Int
deriving DecidableEq

/-- The beginner keyword group of `parse_user_background_simple` (questions.py). -/
def beginnerWords : List Str :=
  [str "beginner", str "new", str "no experience", str "just starting"]

/-- The expert keyword group of `parse_user_background_simple` (questions.py). -/
def expertWords : List Str :=
  [str "expert", str "senior", str "10+ years", str "experienced"]

/-- The advanced keyword group of `parse_user_background_simple` (questions.py). -/
def advancedWords : List Str :=
  [str "advanced", str "proficient", str "5+ years"]

/-- The fixed domain vocabulary of `parse_user_background_simple` (questions.py). -/
def domainWords : List Str :=
  [str "software", str "data", str "engineering", str "teaching", str "business",
   str "healthcare"]

/-- `parse_user_background_simple` (questions.py): heuristic parsing of the
free-form background text.  The tier keyword groups are checked in order
(beginner, then expert, then advanced); the years are the first
whitespace-delimited all-digit token; the domain is the first member of the
fixed vocabulary occurring in the lowered text. -/
def parse_user_background_simple (background_text : Str) : UserBackgroundProfile :=
  let background_lower := lowerStr background_text
  let experience_level :=
    if beginnerWords.any (fun w => occursIn w background_lower) then
      ExperienceLevel.beginner
    else if expertWords.any (fun w => occursIn w background_lower) then
      ExperienceLevel.expert
    else if advancedWords.any (fun w => occursIn w background_lower) then
      ExperienceLevel.advanced
    else
      ExperienceLevel.intermediate
  let years_experience :=
    ((splitWs background_text).find? pyIsDigit).map (fun w => (natOfDigits w : Int))
  let domain := domainWords.find? (fun d => occursIn d background_lower)
  { background_text, experience_level, domain, years_experience }

/-- Question difficulty (models.py `Literal["beginner", "intermediate", "advanced"]`). -/
inductive Difficulty
  | beginner
  | intermediate
  | advanced
deriving DecidableEq

/-- The string pydantic serialises a `Difficulty` to. -/
def Difficulty.toStr : Difficulty → Str
  | .beginner => str "beginner"
  | .intermediate => str "intermediate"
  | .advanced => str "advanced"

/-- `MultipleChoiceQuestion` (models.py).  The constant `type` discriminator
field is carried by the Lean type itself and re-emitted by the encoder. -/
structure MultipleChoiceQuestion where
  question_text : Str
  options : List Str
  correct_answer_index : Int
  explanation : Str
  module_source : Str
  difficulty : Difficulty
deriving DecidableEq

/-- `OpenEndedQuestion` (models.py). -/
structure OpenEndedQuestion where
  question_text : Str
  expected_key_points : List Str
  evaluation_criteria : Str
  module_source : Str
  difficulty : Difficulty
deriving DecidableEq

/-- `AssessmentMetadata` (models.py).  `generation_time_seconds` is a
non-negative number in the source (a Python float, which the source's JSON
encoding round-trips exactly); it is modelled as an `Int` with the `ge=0`
check kept. -/
structure AssessmentMetadata where
  generation_time_seconds : Int
  kb_query_count : Int
  modules_queried : List Str
  difficulty_distribution : List (Str × Int)
  background_profile_used : Option UserBackgroundProfile
deriving DecidableEq

/-- `Assessment` (models.py).  `assessment_id` is the canonical string of the
UUID; `generated_at` the ISO timestamp string. -/
structure Assessment where
  assessment_id : Str
  level : Int
  multiple_choice_questions : List MultipleChoiceQuestion
  open_ended_questions : List OpenEndedQuestion
  generated_at : Str
  user_background : Str
  modules_covered : List Str
  metadata : Option AssessmentMetadata
deriving DecidableEq

/-- The field constraints and validators of `MultipleChoiceQuestion`:
text and explanation at least 10 characters and non-blank, exactly 4
non-blank options, correct index in 0..3. -/
def pydMC (q : MultipleChoiceQuestion) : Bool :=
  decide (10 ≤ q.question_text.length) && !(trimStr q.question_text).isEmpty &&
  (q.options.length == 4) && q.options.all (fun o => !(trimStr o).isEmpty) &&
  decide (0 ≤ q.correct_answer_index) && decide (q.correct_answer_index ≤ 3) &&
  decide (10 ≤ q.explanation.length) && !(trimStr q.explanation).isEmpty

/-- The field constraints and validators of `OpenEndedQuestion`: text at least
10 characters and non-blank, 3 to 7 non-blank key points, criteria at least 20
characters and non-blank. -/
def pydOE (q : OpenEndedQuestion) : Bool :=
  decide (10 ≤ q.question_text.length) && !(trimStr q.question_text).isEmpty &&
  decide (3 ≤ q.expected_key_points.length) &&
  decide (q.expected_key_points.length ≤ 7) &&
  q.expected_key_points.all (fun p => !(trimStr p).isEmpty) &&
  decide (20 ≤ q.evaluation_criteria.length) && !(trimStr q.evaluation_criteria).isEmpty

/-- The field constraints of `UserBackgroundProfile` (`years_experience ge=0`). -/
def pydProfile (p : UserBackgroundProfile) : Bool :=
  match p.years_experience with
  | none => true
  | some y => decide (0 ≤ y)

/-- The field constraints of `AssessmentMetadata` (both numbers `ge=0`). -/
def pydMetadata (m : AssessmentMetadata) : Bool :=
  decide (0 ≤ m.generation_time_seconds) && decide (0 ≤ m.kb_query_count)

/-- First-occurrence deduplication with an explicit seen set; models the
source's `set` membership tests. -/
def dedupAux (seen : List Str) : List Str → List Str
  | [] => []
  | x :: xs => if x ∈ seen then dedupAux seen xs else x :: dedupAux (x :: seen) xs

/-- The distinct elements of `l`, first occurrences first (a Python `set`
rendered as a list). -/
def dedupStrs (l : List Str) : List Str := dedupAux [] l

/-- Boolean lexicographic order on `Str` (Python string comparison). -/
def strLeB : Str → Str → Bool
  | [], _ => true
  | _ :: _, [] => false
  | a :: as, b :: bs => if a == b then strLeB as bs else decide (a.val < b.val)

/-- Insertion step of `sortStrs`. -/
def insertSorted (x : Str) : List Str → List Str
  | [] => [x]
  | y :: ys => if strLeB x y then x :: y :: ys else y :: insertSorted x ys

/-- Python `sorted(...)` on strings, modelled as insertion sort. -/
def sortStrs : List Str → List Str
  | [] => []
  | x :: xs => insertSorted x (sortStrs xs)

/-- Python `sep.join(parts)`. -/
def joinStr (sep : Str) : List Str → Str
  | [] => []
  | [p] => p
  | p :: rest => p ++ sep ++ joinStr sep rest

/-- Decimal rendering of a natural number, as a `Str`. -/
def natToStr (n : Nat) : Str := (toString n).toList

/-- Decimal rendering of an integer, as a `Str`. -/
def intToStr (i : Int) : Str := (toString i).toList

/-- `validate_question_mix` (questions.py): exactly 7 MC and 3 OE. -/
def validate_question_mix (mc : List MultipleChoiceQuestion)
    (oe : List OpenEndedQuestion) : Bool :=
  mc.length == 7 && oe.length == 3

/-- `validate_module_diversity` (questions.py): at least `min_modules` distinct
`module_source` values across both lists. -/
def validate_module_diversity (mc : List MultipleChoiceQuestion)
    (oe : List OpenEndedQuestion) (min_modules : Nat) : Bool :=
  decide (min_modules ≤
    (dedupStrs (mc.map (fun q => q.module_source) ++
                oe.map (fun q => q.module_source))).length)

/-- Seen-set walk behind `validate_unique_questions`: false on the first
repeated element. -/
def noDupAux (seen : List Str) : List Str → Bool
  | [] => true
  | x :: xs => if x ∈ seen then false else noDupAux (x :: seen) xs

/-- `validate_unique_questions` (questions.py): no two questions across both
lists share the same lower-cased `question_text`. -/
def validate_unique_questions (mc : List MultipleChoiceQuestion)
    (oe : List OpenEndedQuestion) : Bool :=
  noDupAux []
    (mc.map (fun q => lowerStr q.question_text) ++
     oe.map (fun q => lowerStr q.question_text))

/-- `get_modules_covered` (questions.py): `sorted(list(set(...)))` of all
`module_source` values. -/
def get_modules_covered (mc : List MultipleChoiceQuestion)
    (oe : List OpenEndedQuestion) : List Str :=
  sortStrs (dedupStrs (mc.map (fun q => q.module_source) ++
                       oe.map (fun q => q.module_source)))

/-- The mix error message of `validate_assessment`. -/
def mixErrorMsg (mcCount oeCount : Nat) : Str :=
  str "Invalid question mix: Expected 7 MC + 3 OE, got " ++ natToStr mcCount ++
  str " MC + " ++ natToStr oeCount ++ str " OE"

/-- The diversity error message of `validate_assessment`. -/
def diversityErrorMsg (modules : List Str) : Str :=
  str "Insufficient module diversity: Expected 5+, got " ++
  natToStr modules.length ++ str " (" ++ joinStr (str ", ") modules ++ str ")"

/-- The level error message of `validate_assessment`. -/
def levelErrorMsg (level : Int) : Str :=
  str "Invalid level: " ++ intToStr level ++ str " (must be 1-4)"

/-- The errors `validate_assessment` accumulates, in source order: wrong mix,
insufficient diversity, invalid level. -/
def validationErrors (level : Int) (mc : List MultipleChoiceQuestion)
    (oe : List OpenEndedQuestion) : List Str :=
  (if validate_question_mix mc oe then [] else [mixErrorMsg mc.length oe.length]) ++
  (if (get_modules_covered mc oe).length < 5 then
    [diversityErrorMsg (get_modules_covered mc oe)]
   else []) ++
  (if level = 1 ∨ level = 2 ∨ level = 3 ∨ level = 4 then [] else [levelErrorMsg level])

/-- The warnings `validate_assessment` accumulates, in source order: duplicate
question text, empty background. -/
def validationWarnings (mc : List MultipleChoiceQuestion)
    (oe : List OpenEndedQuestion) (user_background : Str) : List Str :=
  (if validate_unique_questions mc oe then []
   else [str "Duplicate question text detected"]) ++
  (if trimStr user_background = [] then [str "Empty user background provided"] else [])

/-- The result dictionary of `validate_assessment` (questions.py). -/
structure ValidationResult where
  valid : Bool
  errors : List Str
  warnings : List Str
  modules_covered : List Str
  module_count : Nat
  question_count : Nat
deriving DecidableEq

/-- `validate_assessment` (questions.py): aggregates mix, diversity, uniqueness,
level and background checks; `valid` holds exactly when `errors` is empty. -/
def validate_assessment (level : Int) (mc : List MultipleChoiceQuestion)
    (oe : List OpenEndedQuestion) (user_background : Str) : ValidationResult :=
  { valid := (validationErrors level mc oe).isEmpty,
    errors := validationErrors level mc oe,
    warnings := validationWarnings mc oe user_background,
    modules_covered := get_modules_covered mc oe,
    module_count := (get_modules_covered mc oe).length,
    question_count := mc.length + oe.length }

/-- The model-level validations pydantic runs when an `Assessment` is built
from already-constructed question objects (models.py): level in 1..4, exactly
7 and 3 questions, at least 5 entries and at least 5 distinct entries in
`modules_covered`. -/
def pydAssessment (a : Assessment) : Bool :=
  decide (1 ≤ a.level) && decide (a.level ≤ 4) &&
  (a.multiple_choice_questions.length == 7) &&
  (a.open_ended_questions.length == 3) &&
  decide (5 ≤ a.modules_covered.length) &&
  decide (5 ≤ (dedupStrs a.modules_covered).length)

/-- `create_assessment_from_questions` (questions.py): validate, raise on any
error, otherwise construct the `Assessment` (pydantic re-checking the model
fields).  The nondeterministic `uuid4`/`utcnow` default factories are passed
in as `new_id` and `generated_at`. -/
def create_assessment_from_questions (level : Int) (mc : List MultipleChoiceQuestion)
    (oe : List OpenEndedQuestion) (user_background : Str)
    (new_id generated_at : Str) : Except Str Assessment :=
  if !(validate_assessment level mc oe user_background).valid then
    .error (str "Assessment validation failed: " ++
      joinStr (str "; ") (validate_assessment level mc oe user_background).errors)
  else
    let a : Assessment :=
      { assessment_id := new_id, level := level,
        multiple_choice_questions := mc, open_ended_questions := oe,
        generated_at := generated_at, user_background := user_background,
        modules_covered := (validate_assessment level mc oe user_background).modules_covered,
        metadata := none }
    if pydAssessment a then .ok a
    else .error (str "Assessment model validation error")

/-- True when an `Except` value is a success. -/
def isOkE {e a : Type} : Except e a → Bool
  | .ok _ => true
  | .error _ => false

/-- Four fixed answer options shared by the sample questions. -/
def sampleOptions : List Str :=
  [str "Option A", str "Option B", str "Option C", str "Option D"]

/-- A concrete valid multiple-choice question, distinct per index. -/
def mkMC (i : Nat) : MultipleChoiceQuestion :=
  { question_text := str "Multiple choice question number " ++ natToStr i ++ str "?",
    options := sampleOptions,
    correct_answer_index := 0,
    explanation := str "Explanation for multiple choice question " ++ natToStr i,
    module_source := str "Module " ++ natToStr i,
    difficulty := Difficulty.intermediate }

/-- Seven distinct sample multiple-choice questions over seven modules. -/
def sampleMC : List MultipleChoiceQuestion := (List.range 7).map mkMC

/-- A concrete valid open-ended question, distinct per index. -/
def mkOE (i : Nat) : OpenEndedQuestion :=
  { question_text := str "Open ended question number " ++ natToStr i ++ str "?",
    expected_key_points :=
      [str "First key point", str "Second key point", str "Third key point"],
    evaluation_criteria := str "Clear and complete coverage of the key points",
    module_source := str "Module " ++ natToStr i,
    difficulty := Difficulty.advanced }

/-- Three distinct sample open-ended questions. -/
def sampleOE : List OpenEndedQuestion := (List.range 3).map mkOE

/-- An open-ended question whose text duplicates, up to case, the first sample
multiple-choice question's text. -/
def dupOEQuestion : OpenEndedQuestion :=
  { question_text := str "MULTIPLE CHOICE QUESTION NUMBER 0?",
    expected_key_points :=
      [str "First key point", str "Second key point", str "Third key point"],
    evaluation_criteria := str "Clear and complete coverage of the key points",
    module_source := str "Module 8",
    difficulty := Difficulty.beginner }

/-- Open-ended list containing the case-insensitive duplicate. -/
def dupOE : List OpenEndedQuestion := [dupOEQuestion, mkOE 1, mkOE 2]

/-- The S3 error codes `retry_with_backoff` (s3_uploader.py) distinguishes. -/
inductive S3ErrorCode
  | noSuchBucket
  | accessDenied
  | invalidBucketName
  | throttling
  | serviceUnavailable
  | requestTimeout
  | requestTimeTooSkewed
  | unknown
deriving DecidableEq

/-- The permanent error codes (raised immediately, never retried). -/
def isPermanentCode : S3ErrorCode → Bool
  | .noSuchBucket => true
  | .accessDenied => true
  | .invalidBucketName => true
  | _ => false

/-- The transient error codes (candidates for retry with backoff). -/
def isTransientCode : S3ErrorCode → Bool
  | .throttling => true
  | .serviceUnavailable => true
  | .requestTimeout => true
  | .requestTimeTooSkewed => true
  | _ => false

/-- The outcome of one underlying S3 call: a value, or a `ClientError` with a
code and message. -/
inductive CallOutcome (a : Type)
  | ok (value : a)
  | clientError (code : S3ErrorCode) (msg : Str)
deriving DecidableEq

/-- What a run of the retry wrapper does: return a value, re-raise a
`ClientError`, or raise the post-loop `RuntimeError`; `sleeps` lists the
backoff delays actually slept, in order. -/
inductive RetryOutcome (a : Type)
  | ok (value : a) (sleeps : List Nat)
  | raisedClient (code : S3ErrorCode) (msg : Str) (sleeps : List Nat)
  | raisedRuntime (msg : Str) (sleeps : List Nat)
deriving DecidableEq

/-- The loop of `retry_with_backoff` (s3_uploader.py): `calls n` is the outcome
of the call on attempt `n` (0-based); `remaining` counts the attempts the
`for attempt in range(max_attempts)` loop has left.  A permanent code is
re-raised at once; a transient code with `attempt < max_attempts - 1` sleeps
`backoff_seconds[attempt]` (last entry when past the end) and continues; any
other error, including a transient one on the final attempt, is re-raised.
When the loop exhausts, the `RuntimeError` after it is raised. -/
def retryFrom {a : Type} (calls : Nat → CallOutcome a) (maxAttempts : Nat)
    (backoff : List Nat) : Nat → Nat → List Nat → RetryOutcome a
  | 0, _, sleeps =>
    .raisedRuntime
      (str "Max retries (" ++ natToStr maxAttempts ++ str ") exceeded for S3 operation")
      sleeps.reverse
  | remaining + 1, attempt, sleeps =>
    match calls attempt with
    | .ok v => .ok v sleeps.reverse
    | .clientError code msg =>
      if isPermanentCode code then .raisedClient code msg sleeps.reverse
      else if isTransientCode code && attempt + 1 < maxAttempts then
        retryFrom calls maxAttempts backoff remaining (attempt + 1)
          (backoff.getD attempt (backoff.getLastD 0) :: sleeps)
      else .raisedClient code msg sleeps.reverse

/-- `retry_with_backoff(max_attempts=3, backoff_seconds=[1, 2, 4])` as applied
to `_upload_with_retry` (s3_uploader.py). -/
def retry_with_backoff {a : Type} (calls : Nat → CallOutcome a) : RetryOutcome a :=
  retryFrom calls 3 [1, 2, 4] 3 0 []

/-- An underlying call that always raises a throttling `ClientError`. -/
def alwaysThrottled : Nat → CallOutcome Unit :=
  fun _ => .clientError S3ErrorCode.throttling (str "Rate exceeded")

/-- An underlying call that raises access-denied on every attempt. -/
def alwaysDenied : Nat → CallOutcome Unit :=
  fun _ => .clientError S3ErrorCode.accessDenied (str "Access Denied")

/-- An underlying call throttled on the first two attempts, succeeding on the
third. -/
def throttledTwice : Nat → CallOutcome Unit :=
  fun n => if n < 2 then .clientError S3ErrorCode.throttling (str "Rate exceeded")
           else .ok ()

/-- The JSON values occurring in the structured encoding of an assessment. -/
inductive Json
  | str (s : Str)
  | num (n : Int)
  | null
  | arr (items : List Json)
  | obj (fields : List (Str × Json))

/-- Field lookup in a JSON object (Python dict access by key). -/
def lookupField : List (Str × Json) → Str → Option Json
  | [], _ => none
  | (k, v) :: rest, key => if k = key then some v else lookupField rest key

/-- A JSON string, or failure. -/
def asStr : Json → Option Str
  | .str s => some s
  | _ => none

/-- A JSON number, or failure. -/
def asInt : Json → Option Int
  | .num n => some n
  | _ => none

/-- Monadic map over `Option`, by structural recursion. -/
def optionMapM {a b : Type} (f : a → Option b) : List a → Option (List b)
  | [] => some []
  | x :: xs =>
    match f x with
    | none => none
    | some y =>
      match optionMapM f xs with
      | none => none
      | some ys => some (y :: ys)

/-- A JSON array of strings. -/
def asStrList : Json → Option (List Str)
  | .arr items => optionMapM asStr items
  | _ => none

/-- Parse a serialised difficulty. -/
def decodeDifficulty : Json → Option Difficulty
  | .str s =>
    if s = str "beginner" then some Difficulty.beginner
    else if s = str "intermediate" then some Difficulty.intermediate
    else if s = str "advanced" then some Difficulty.advanced
    else none
  | _ => none

/-- The string pydantic serialises an `ExperienceLevel` to. -/
def ExperienceLevel.toStr : ExperienceLevel → Str
  | .beginner => str "beginner"
  | .intermediate => str "intermediate"
  | .advanced => str "advanced"
  | .expert => str "expert"

/-- Parse a serialised experience level. -/
def decodeExperience : Json → Option ExperienceLevel
  | .str s =>
    if s = str "beginner" then some ExperienceLevel.beginner
    else if s = str "intermediate" then some ExperienceLevel.intermediate
    else if s = str "advanced" then some ExperienceLevel.advanced
    else if s = str "expert" then some ExperienceLevel.expert
    else none
  | _ => none

/-- Python `s.split(c)`: split at every occurrence of `c`, keeping empties. -/
def splitCharKeep (c : Char) : Str → List Str
  | [] => [[]]
  | ch :: rest =>
    if ch = c then [] :: splitCharKeep c rest
    else
      match splitCharKeep c rest with
      | [] => [[ch]]
      | h :: t => (ch :: h) :: t

/-- Lowercase hexadecimal digit. -/
def isHexLowerDigit (c : Char) : Bool := c.isDigit || ('a' ≤ c && c ≤ 'f')

/-- The canonical lowercase 8-4-4-4-12 rendering `str(uuid4())` produces;
`UUID(s)` accepts it and re-renders it unchanged, so parsing a dumped id is
the identity on such strings. -/
def isUuidStr (s : Str) : Bool :=
  ((splitCharKeep '-' s).map List.length == [8, 4, 4, 4, 12]) &&
  (splitCharKeep '-' s).all (fun p => p.all isHexLowerDigit)

/-- `model_dump_json` of a `MultipleChoiceQuestion` (declaration field order). -/
def encodeMC (q : MultipleChoiceQuestion) : Json :=
  .obj [(str "type", .str (str "multiple_choice")),
        (str "question_text", .str q.question_text),
        (str "options", .arr (q.options.map Json.str)),
        (str "correct_answer_index", .num q.correct_answer_index),
        (str "explanation", .str q.explanation),
        (str "module_source", .str q.module_source),
        (str "difficulty", .str q.difficulty.toStr)]

/-- `model_dump_json` of an `OpenEndedQuestion`. -/
def encodeOE (q : OpenEndedQuestion) : Json :=
  .obj [(str "type", .str (str "open_ended")),
        (str "question_text", .str q.question_text),
        (str "expected_key_points", .arr (q.expected_key_points.map Json.str)),
        (str "evaluation_criteria", .str q.evaluation_criteria),
        (str "module_source", .str q.module_source),
        (str "difficulty", .str q.difficulty.toStr)]

/-- `model_dump_json` of a `UserBackgroundProfile`. -/
def encodeProfile (p : UserBackgroundProfile) : Json :=
  .obj [(str "background_text", .str p.background_text),
        (str "experience_level", .str p.experience_level.toStr),
        (str "domain", match p.domain with | none => .null | some d => .str d),
        (str "years_experience",
          match p.years_experience with | none => .null | some y => .num y)]

/-- `model_dump_json` of an `AssessmentMetadata`. -/
def encodeMetadata (m : AssessmentMetadata) : Json :=
  .obj [(str "generation_time_seconds", .num m.generation_time_seconds),
        (str "kb_query_count", .num m.kb_query_count),
        (str "modules_queried", .arr (m.modules_queried.map Json.str)),
        (str "difficulty_distribution",
          .obj (m.difficulty_distribution.map (fun p => (p.1, Json.num p.2)))),
        (str "background_profile_used",
          match m.background_profile_used with
          | none => .null
          | some p => encodeProfile p)]

/-- `model_dump_json` of an `Assessment` (s3_uploader.py writes exactly this
object as the structured encoding). -/
def encodeAssessment (a : Assessment) : Json :=
  .obj [(str "assessment_id", .str a.assessment_id),
        (str "level", .num a.level),
        (str "multiple_choice_questions",
          .arr (a.multiple_choice_questions.map encodeMC)),
        (str "open_ended_questions", .arr (a.open_ended_questions.map encodeOE)),
        (str "generated_at", .str a.generated_at),
        (str "user_background", .str a.user_background),
        (str "modules_covered", .arr (a.modules_covered.map Json.str)),
        (str "metadata",
          match a.metadata with | none => .null | some m => encodeMetadata m)]

/-- The constant `type` discriminator may be absent (it has a default) but
must match when present. -/
def typeFieldOk (fs : List (Str × Json)) (expected : Str) : Bool :=
  match lookupField fs (str "type") with
  | none => true
  | some (.str t) => decide (t = expected)
  | some _ => false

/-- Parse and validate a `MultipleChoiceQuestion` from a JSON object, as
pydantic does for each nested dict of `Assessment(**assessment_dict)`. -/
def decodeMC (j : Json) : Option MultipleChoiceQuestion :=
  match j with
  | .obj fs =>
    if typeFieldOk fs (str "multiple_choice") then
      match (lookupField fs (str "question_text")).bind asStr,
            (lookupField fs (str "options")).bind asStrList,
            (lookupField fs (str "correct_answer_index")).bind asInt,
            (lookupField fs (str "explanation")).bind asStr,
            (lookupField fs (str "module_source")).bind asStr,
            (lookupField fs (str "difficulty")).bind decodeDifficulty with
      | some qt, some opts, some idx, some ex, some ms, some df =>
        let q : MultipleChoiceQuestion :=
          { question_text := qt, options := opts, correct_answer_index := idx,
            explanation := ex, module_source := ms, difficulty := df }
        if pydMC q then some q else none
      | _, _, _, _, _, _ => none
    else none
  | _ => none

/-- Parse and validate an `OpenEndedQuestion` from a JSON object. -/
def decodeOE (j : Json) : Option OpenEndedQuestion :=
  match j with
  | .obj fs =>
    if typeFieldOk fs (str "open_ended") then
      match (lookupField fs (str "question_text")).bind asStr,
            (lookupField fs (str "expected_key_points")).bind asStrList,
            (lookupField fs (str "evaluation_criteria")).bind asStr,
            (lookupField fs (str "module_source")).bind asStr,
            (lookupField fs (str "difficulty")).bind decodeDifficulty with
      | some qt, some kp, some ec, some ms, some df =>
        let q : OpenEndedQuestion :=
          { question_text := qt, expected_key_points := kp,
            evaluation_criteria := ec, module_source := ms, difficulty := df }
        if pydOE q then some q else none
      | _, _, _, _, _ => none
    else none
  | _ => none

/-- Parse and validate a `UserBackgroundProfile` from a JSON object. -/
def decodeProfile (j : Json) : Option UserBackgroundProfile :=
  match j with
  | .obj fs =>
    match (lookupField fs (str "background_text")).bind asStr,
          (lookupField fs (str "experience_level")).bind decodeExperience,
          (match lookupField fs (str "domain") with
           | none => some none
           | some .null => some none
           | some (.str s) => some (some s)
           | some _ => none),
          (match lookupField fs (str "years_experience") with
           | none => some none
           | some .null => some none
           | some (.num n) => some (some n)
           | some _ => none) with
    | some bt, some el, some dm, some ye =>
      let p : UserBackgroundProfile :=
        { background_text := bt, experience_level := el, domain := dm,
          years_experience := ye }
      if pydProfile p then some p else none
    | _, _, _, _ => none
  | _ => none

/-- Parse a difficulty-distribution dict (string keys, integer counts, as
`get_difficulty_distribution` produces them). -/
def decodeDistribution : Json → Option (List (Str × Int))
  | .obj fs => optionMapM (fun p => (asInt p.2).map (fun n => (p.1, n))) fs
  | _ => none

/-- Parse and validate an `AssessmentMetadata` from a JSON object; the
list-valued and dict-valued fields default to empty when absent, the profile
to `None`. -/
def decodeMetadata (j : Json) : Option AssessmentMetadata :=
  match j with
  | .obj fs =>
    match (lookupField fs (str "generation_time_seconds")).bind asInt,
          (lookupField fs (str "kb_query_count")).bind asInt,
          (match lookupField fs (str "modules_queried") with
           | none => some []
           | some j2 => asStrList j2),
          (match lookupField fs (str "difficulty_distribution") with
           | none => some []
           | some j2 => decodeDistribution j2),
          (match lookupField fs (str "background_profile_used") with
           | none => some none
           | some .null => some none
           | some j2 => (decodeProfile j2).map some) with
    | some gt, some kq, some mq, some dd, some bp =>
      let m : AssessmentMetadata :=
        { generation_time_seconds := gt, kb_query_count := kq,
          modules_queried := mq, difficulty_distribution := dd,
          background_profile_used := bp }
      if pydMetadata m then some m else none
    | _, _, _, _, _ => none
  | _ => none

/-- `Assessment(**assessment_dict)` (s3_uploader.py): rebuild an `Assessment`
from a parsed JSON object, running every pydantic validation.  The fields
whose source defaults are nondeterministic (`assessment_id`, `generated_at`)
are required here: a dump always carries them. -/
def decodeAssessment (j : Json) : Option Assessment :=
  match j with
  | .obj fs =>
    match (lookupField fs (str "assessment_id")).bind asStr,
          (lookupField fs (str "level")).bind asInt,
          (lookupField fs (str "multiple_choice_questions")).bind
            (fun j2 =>
              match j2 with
              | .arr items => optionMapM decodeMC items
              | _ => none),
          (lookupField fs (str "open_ended_questions")).bind
            (fun j2 =>
              match j2 with
              | .arr items => optionMapM decodeOE items
              | _ => none),
          (lookupField fs (str "generated_at")).bind asStr,
          (lookupField fs (str "user_background")).bind asStr,
          (lookupField fs (str "modules_covered")).bind asStrList,
          (match lookupField fs (str "metadata") with
           | none => some none
           | some .null => some none
           | some j2 => (decodeMetadata j2).map some) with
    | some aid, some lv, some mc, some oe, some gat, some ub, some mods, some meta =>
      if isUuidStr aid then
        let a : Assessment :=
          { assessment_id := aid, level := lv, multiple_choice_questions := mc,
            open_ended_questions := oe, generated_at := gat,
            user_background := ub, modules_covered := mods, metadata := meta }
        if pydAssessment a then some a else none
      else none
    | _, _, _, _, _, _, _, _ => none
  | _ => none

/-- A fully validated `Assessment` as it exists at runtime: the model checks
hold, every nested model passed its own validators, and the id is a canonical
UUID string. -/
def wellFormedAssessment (a : Assessment) : Bool :=
  isUuidStr a.assessment_id && pydAssessment a &&
  a.multiple_choice_questions.all pydMC &&
  a.open_ended_questions.all pydOE &&
  (match a.metadata with
   | none => true
   | some m =>
     pydMetadata m &&
     (match m.background_profile_used with
      | none => true
      | some p => pydProfile p))

/-- A concrete background profile used by the round-trip witness. -/
def sampleProfile : UserBackgroundProfile :=
  { background_text := str "5 years of software development",
    experience_level := ExperienceLevel.advanced,
    domain := some (str "software"),
    years_experience := some 5 }

/-- Concrete generation metadata used by the round-trip witness. -/
def sampleMetadata : AssessmentMetadata :=
  { generation_time_seconds := 3,
    kb_query_count := 12,
    modules_queried := [str "Module 0", str "Module 1"],
    difficulty_distribution :=
      [(str "beginner", 0), (str "intermediate", 7), (str "advanced", 3)],
    background_profile_used := some sampleProfile }

/-- A concrete fully valid assessment. -/
def sampleAssessment : Assessment :=
  { assessment_id := str "1f2a3b4c-5d6e-4f70-8a9b-0c1d2e3f4a5b",
    level := 2,
    multiple_choice_questions := sampleMC,
    open_ended_questions := sampleOE,
    generated_at := str "2025-11-06T12:00:00",
    user_background := str "Sample background",
    modules_covered := get_modules_covered sampleMC sampleOE,
    metadata := some sampleMetadata }

/-- Zero-padded decimal rendering of width `w`. -/
def padZeros (w n : Nat) : Str :=
  List.replicate (w - (natToStr n).length) '0' ++ natToStr n

/-- A wall-clock timestamp to second granularity (`datetime.now()` passed into
the uploader). -/
structure Timestamp where
  year : Nat
  month : Nat
  day : Nat
  hour : Nat
  minute : Nat
  second : Nat
deriving DecidableEq

/-- `timestamp.strftime('%Y%m%d_%H%M%S')` as used by `_generate_s3_key`. -/
def strftimeCompact (t : Timestamp) : Str :=
  padZeros 4 t.year ++ padZeros 2 t.month ++ padZeros 2 t.day ++ str "_" ++
  padZeros 2 t.hour ++ padZeros 2 t.minute ++ padZeros 2 t.second

/-- `timestamp.isoformat()` to second granularity. -/
def isoformatTs (t : Timestamp) : Str :=
  padZeros 4 t.year ++ str "-" ++ padZeros 2 t.month ++ str "-" ++
  padZeros 2 t.day ++ str "T" ++ padZeros 2 t.hour ++ str ":" ++
  padZeros 2 t.minute ++ str ":" ++ padZeros 2 t.second

/-- The part of the S3 key shared by both encodings of one store call:
`{prefix}/level_{level}/level_{level}_{YYYYMMDD_HHMMSS}`. -/
def s3KeyBase (prefixStr : Str) (level : Int) (t : Timestamp) : Str :=
  prefixStr ++ str "/level_" ++ intToStr level ++ str "/level_" ++
    intToStr level ++ str "_" ++ strftimeCompact t

/-- `_generate_s3_key` (s3_uploader.py): the hierarchical key with extension
`json` when the format is "json" and `md` otherwise. -/
def generate_s3_key (prefixStr : Str) (level : Int) (t : Timestamp)
    (file_format : Str) : Str :=
  prefixStr ++ str "/level_" ++ intToStr level ++ str "/level_" ++
    intToStr level ++ str "_" ++ strftimeCompact t ++ str "." ++
    (if file_format = str "json" then str "json" else str "md")

/-- `_format_s3_uri` (s3_uploader.py). -/
def format_s3_uri (bucket key : Str) : Str :=
  str "s3://" ++ bucket ++ str "/" ++ key

/-- `upload_assessment` (s3_uploader.py) for one format: derive the key, run
the retrying upload (`calls n` being the outcome of the underlying
`put_object` on attempt `n`), and return the S3 URI on success, or the raised
error's message as a failure. -/
def upload_assessment (a : Assessment) (file_format : Str)
    (bucket prefixStr : Str) (t : Timestamp)
    (calls : Nat → CallOutcome Unit) : Except Str Str :=
  match retry_with_backoff calls with
  | .ok _ _ =>
    .ok (format_s3_uri bucket (generate_s3_key prefixStr a.level t file_format))
  | .raisedClient _ msg _ => .error msg
  | .raisedRuntime msg _ => .error msg

/-- The result dictionary of the `upload_assessment_to_s3` tool. -/
structure ToolResult where
  status : Str
  s3_uri_json : Option Str
  s3_uri_markdown : Option Str
  error : Option Str
  level : Int
  timestamp : Option Str
  bucket : Option Str
  prefixStr : Option Str
deriving DecidableEq

/-- The error dictionary the tool's except-branches return. -/
def toolError (msg : Str) (level : Int) : ToolResult :=
  { status := str "error", s3_uri_json := none, s3_uri_markdown := none,
    error := some msg, level := level, timestamp := none, bucket := none,
    prefixStr := none }

/-- The success dictionary of the tool. -/
def toolSuccess (uriJson uriMd : Str) (level : Int) (now : Timestamp)
    (bucket prefixStr : Str) : ToolResult :=
  { status := str "success", s3_uri_json := some uriJson,
    s3_uri_markdown := some uriMd, error := none, level := level,
    timestamp := some (isoformatTs now), bucket := some bucket,
    prefixStr := some prefixStr }

/-- `upload_assessment_to_s3` (s3_uploader.py), the subagent tool.  `parsed`
is the outcome of `json.loads` (`none` a `JSONDecodeError`); the assessment is
re-validated by `Assessment(**assessment_dict)`; both encodings are uploaded
with one shared `datetime.now()` timestamp; every failure is returned as a
status-"error" dictionary rather than raised. -/
def upload_assessment_to_s3 (parsed : Option Json) (level : Int)
    (bucket prefixStr : Str) (now : Timestamp)
    (callsJson callsMd : Nat → CallOutcome Unit) : ToolResult :=
  match parsed with
  | none => toolError (str "Invalid JSON format") level
  | some j =>
    match decodeAssessment j with
    | none => toolError (str "S3 upload failed: assessment validation error") level
    | some a =>
      match upload_assessment a (str "json") bucket prefixStr now callsJson with
      | .error msg => toolError (str "S3 upload failed: " ++ msg) level
      | .ok uriJson =>
        match upload_assessment a (str "markdown") bucket prefixStr now callsMd with
        | .error msg => toolError (str "S3 upload failed: " ++ msg) level
        | .ok uriMd => toolSuccess uriJson uriMd level now bucket prefixStr

/-- One retrieval result of the overview query (kb_tools.py): the text found
under `result['content']['text']`, empty when absent. -/
structure OverviewResult where
  content_text : Str
deriving DecidableEq

/-- The keywords a lowered line must contain to be treated as a module
heading (kb_tools.py). -/
def moduleKeywords : List Str :=
  [str "module", str "course", str "unit", str "chapter"]

/-- Python `line.split(c)[0]`: the prefix before the first occurrence of `c`. -/
def takeBeforeChar (c : Char) (s : Str) : Str := s.takeWhile (fun ch => ch ≠ c)

/-- The candidate module names one overview text contributes
(kb_tools.py `extract_modules_from_overview`): its lines, stripped, that
contain a keyword, truncated at the first colon then the first period,
stripped again, kept when nonempty and under 100 characters. -/
def extractNamesFromText (text : Str) : List Str :=
  (splitCharKeep '\n' text).filterMap (fun line0 =>
    let line := trimStr line0
    if moduleKeywords.any (fun kw => occursIn kw (lowerStr line)) then
      let module_name := trimStr (takeBeforeChar '.' (takeBeforeChar ':' line))
      if module_name ≠ [] ∧ module_name.length < 100 then some module_name
      else none
    else none)

/-- All candidate names across the results whose text is non-blank. -/
def rawModuleNames (overview_results : List OverviewResult) : List Str :=
  ((overview_results.filterMap (fun r =>
      if trimStr r.content_text ≠ [] then some r.content_text else none)).map
    extractNamesFromText).flatten

/-- Case-insensitive first-occurrence deduplication with a seen set of lowered
names (kb_tools.py). -/
def dedupCIAux (seen : List Str) : List Str → List Str
  | [] => []
  | m :: ms =>
    if lowerStr m ∈ seen then dedupCIAux seen ms
    else m :: dedupCIAux (lowerStr m :: seen) ms

/-- Order-preserving case-insensitive deduplication. -/
def dedupCI (l : List Str) : List Str := dedupCIAux [] l

/-- The synthetic placeholder name `"Level {level} Module {i+1}"` appended for
loop index `i`. -/
def syntheticName (level : Int) (i : Nat) : Str :=
  str "Level " ++ intToStr level ++ str " Module " ++ natToStr (i + 1)

/-- `extract_modules_from_overview` (kb_tools.py): parse, deduplicate, and pad
with synthetic names up to 6 when fewer were discovered. -/
def extract_modules_from_overview (overview_results : List OverviewResult)
    (level : Int) : List Str :=
  let unique_modules := dedupCI (rawModuleNames overview_results)
  if unique_modules.length < 6 then
    unique_modules ++
      ((List.range 6).drop unique_modules.length).map (syntheticName level)
  else unique_modules

/-- One step of `get_difficulty_distribution`: `distribution[key] += 1`. -/
def bumpKey (d : List (Str × Int)) (key : Str) : List (Str × Int) :=
  d.map (fun p => if p.1 = key then (p.1, p.2 + 1) else p)

/-- The zeroed distribution `get_difficulty_distribution` starts from. -/
def difficultyZeroDist : List (Str × Int) :=
  [(str "beginner", 0), (str "intermediate", 0), (str "advanced", 0)]

/-- `Assessment.get_difficulty_distribution` (models.py): one running dict,
incremented over the multiple-choice questions first, then the open-ended
ones. -/
def get_difficulty_distribution (a : Assessment) : List (Str × Int) :=
  a.open_ended_questions.foldl (fun d q => bumpKey d q.difficulty.toStr)
    (a.multiple_choice_questions.foldl (fun d q => bumpKey d q.difficulty.toStr)
      difficultyZeroDist)
/-- C4 counterexample: on the input "5+ years of software development
experience" the parser does yield tier advanced and domain software, but its
years field is `none`, not 5: the token "5+" is not an all-digit token, so the
claimed conjunction is false. -/
theorem claim4_counterexample :
    ¬ ((parse_user_background_simple
          (str "5+ years of software development experience")).experience_level =
            ExperienceLevel.advanced ∧
       (parse_user_background_simple
          (str "5+ years of software development experience")).domain =
            some (str "software") ∧
       (parse_user_background_simple
          (str "5+ years of software development experience")).years_experience =
            some 5) := by
  decide

/-- C4 amended: "5+ years of software development experience" parses to tier
advanced and domain software, with `years_experience = none`, because "5+"
fails Python's `str.isdigit` test and no other token is an integer. -/
theorem claim4_amended :
    parse_user_background_simple (str "5+ years of software development experience") =
      { background_text := str "5+ years of software development experience",
        experience_level := ExperienceLevel.advanced,
        domain := some (str "software"),
        years_experience := none } := by
  decide

/-- C8 counterexample: "3 years in data" contains none of the twelve tier
keywords, and the parser indeed falls back to tier intermediate, yet its
domain is `some "data"` and its years `some 3`, refuting the claim that a
text without tier keywords parses to domain None and years None. -/
theorem claim8_counterexample :
    ((beginnerWords ++ expertWords ++ advancedWords).all
        (fun w => !(occursIn w (lowerStr (str "3 years in data"))))) = true ∧
    (parse_user_background_simple (str "3 years in data")).experience_level =
      ExperienceLevel.intermediate ∧
    (parse_user_background_simple (str "3 years in data")).domain =
      some (str "data") ∧
    (parse_user_background_simple (str "3 years in data")).years_experience =
      some 3 := by
  decide

/-- C8 amended: the parser is total; the tier is chosen first-match-wins over
the beginner, expert, advanced keyword groups in that order, defaulting to
intermediate, so a text with no tier keyword gets tier intermediate; for every
text, independently of the tier keywords, the domain is `none` exactly when no
word of the fixed vocabulary occurs in the lowered text, and the years are
`none` exactly when no whitespace-delimited token is all digits. -/
theorem claim8_parser_behaviour (text : Str) :
    (beginnerWords.any (fun w => occursIn w (lowerStr text)) = true →
      (parse_user_background_simple text).experience_level = ExperienceLevel.beginner) ∧
    (beginnerWords.any (fun w => occursIn w (lowerStr text)) = false →
      expertWords.any (fun w => occursIn w (lowerStr text)) = true →
      (parse_user_background_simple text).experience_level = ExperienceLevel.expert) ∧
    (beginnerWords.any (fun w => occursIn w (lowerStr text)) = false →
      expertWords.any (fun w => occursIn w (lowerStr text)) = false →
      advancedWords.any (fun w => occursIn w (lowerStr text)) = true →
      (parse_user_background_simple text).experience_level = ExperienceLevel.advanced) ∧
    (beginnerWords.any (fun w => occursIn w (lowerStr text)) = false →
      expertWords.any (fun w => occursIn w (lowerStr text)) = false →
      advancedWords.any (fun w => occursIn w (lowerStr text)) = false →
      (parse_user_background_simple text).experience_level = ExperienceLevel.intermediate) ∧
    ((parse_user_background_simple text).domain = none ↔
      domainWords.all (fun d => !(occursIn d (lowerStr text))) = true) ∧
    ((parse_user_background_simple text).years_experience = none ↔
      (splitWs text).all (fun w => !(pyIsDigit w)) = true) := by
  refine ⟨?_, ?_, ?_, ?_, ?_, ?_⟩
  · intro h1
    simp [parse_user_background_simple, h1]
  · intro h1 h2
    simp [parse_user_background_simple, h1, h2]
  · intro h1 h2 h3
    simp [parse_user_background_simple, h1, h2, h3]
  · intro h1 h2 h3
    simp [parse_user_background_simple, h1, h2, h3]
  · constructor
    · intro h
      have hnone : domainWords.find? (fun d => occursIn d (lowerStr text)) = none := h
      rw [List.find?_eq_none] at hnone
      rw [List.all_eq_true]
      intro d hd
      have := hnone d hd
      simpa using this
    · intro h
      have hnone : domainWords.find? (fun d => occursIn d (lowerStr text)) = none := by
        rw [List.find?_eq_none]
        intro d hd
        have := List.all_eq_true.mp h d hd
        simpa using this
      simp [parse_user_background_simple, hnone]
  · constructor
    · intro h
      have hm : ((splitWs text).find? pyIsDigit).map
          (fun w => (natOfDigits w : Int)) = none := h
      have hnone : (splitWs text).find? pyIsDigit = none := by
        cases hf : (splitWs text).find? pyIsDigit with
        | none => rfl
        | some w =>
          rw [hf] at hm
          simp at hm
      rw [List.find?_eq_none] at hnone
      rw [List.all_eq_true]
      intro w hw
      have := hnone w hw
      simpa using this
    · intro h
      have hnone : (splitWs text).find? pyIsDigit = none := by
        rw [List.find?_eq_none]
        intro w hw
        have := List.all_eq_true.mp h w hw
        simpa using this
      simp [parse_user_background_simple, hnone]

/-- Every element `dedupAux` keeps avoids the seen set. -/
theorem dedupAux_not_mem_seen :
    ∀ (l seen : List Str) (x : Str), x ∈ dedupAux seen l → x ∉ seen := by
  intro l
  induction l with
  | nil => intro seen x hx; simp [dedupAux] at hx
  | cons y ys ih =>
    intro seen x hx
    by_cases hy : y ∈ seen
    · rw [dedupAux, if_pos hy] at hx
      exact ih seen x hx
    · rw [dedupAux, if_neg hy] at hx
      rcases List.mem_cons.mp hx with h | h
      · exact h ▸ hy
      · intro hxs
        exact ih (y :: seen) x h (List.mem_cons_of_mem y hxs)

/-- The output of `dedupAux` has no duplicates. -/
theorem dedupAux_nodup : ∀ (l seen : List Str), (dedupAux seen l).Nodup := by
  intro l
  induction l with
  | nil => intro seen; simp [dedupAux]
  | cons y ys ih =>
    intro seen
    by_cases hy : y ∈ seen
    · rw [dedupAux, if_pos hy]; exact ih seen
    · rw [dedupAux, if_neg hy]
      refine List.nodup_cons.mpr ⟨?_, ih (y :: seen)⟩
      intro hmem
      exact dedupAux_not_mem_seen ys (y :: seen) y hmem (List.mem_cons_self y seen)

/-- `dedupStrs` has no duplicates. -/
theorem dedupStrs_nodup (l : List Str) : (dedupStrs l).Nodup :=
  dedupAux_nodup l []

/-- On a duplicate-free list disjoint from the seen set, `dedupAux` is the
identity. -/
theorem dedupAux_eq_self :
    ∀ (l seen : List Str), l.Nodup → (∀ x ∈ l, x ∉ seen) → dedupAux seen l = l := by
  intro l
  induction l with
  | nil => intro seen _ _; rfl
  | cons y ys ih =>
    intro seen hnd hdisj
    have hy : y ∉ seen := hdisj y (List.mem_cons_self y ys)
    rw [dedupAux, if_neg hy]
    have hnd' := List.nodup_cons.mp hnd
    congr 1
    refine ih (y :: seen) hnd'.2 ?_
    intro x hx
    intro hmem
    rcases List.mem_cons.mp hmem with h | h
    · exact hnd'.1 (h ▸ hx)
    · exact hdisj x (List.mem_cons_of_mem y hx) h

/-- On a duplicate-free list, `dedupStrs` is the identity. -/
theorem dedupStrs_eq_self {l : List Str} (h : l.Nodup) : dedupStrs l = l :=
  dedupAux_eq_self l [] h (by intro x _ hx; simp at hx)

/-- Inserting into a sorted list permutes consing. -/
theorem insertSorted_perm (x : Str) :
    ∀ l : List Str, (insertSorted x l).Perm (x :: l) := by
  intro l
  induction l with
  | nil => simp [insertSorted]
  | cons y ys ih =>
    rw [insertSorted]
    by_cases h : strLeB x y
    · rw [if_pos h]
    · rw [if_neg h]
      exact (List.Perm.cons y ih).trans (List.Perm.swap x y ys)

/-- `sortStrs` permutes its input. -/
theorem sortStrs_perm : ∀ l : List Str, (sortStrs l).Perm l := by
  intro l
  induction l with
  | nil => simp [sortStrs]
  | cons y ys ih =>
    rw [sortStrs]
    exact (insertSorted_perm y (sortStrs ys)).trans (List.Perm.cons y ih)

/-- `sortStrs` preserves length. -/
theorem sortStrs_length (l : List Str) : (sortStrs l).length = l.length :=
  (sortStrs_perm l).length_eq

/-- `sortStrs` preserves freedom from duplicates. -/
theorem sortStrs_nodup {l : List Str} (h : l.Nodup) : (sortStrs l).Nodup :=
  ((sortStrs_perm l).symm.nodup h)

/-- `get_modules_covered` has no duplicates. -/
theorem get_modules_covered_nodup (mc : List MultipleChoiceQuestion)
    (oe : List OpenEndedQuestion) : (get_modules_covered mc oe).Nodup :=
  sortStrs_nodup (dedupStrs_nodup _)

/-- The mix predicate in propositional form. -/
theorem validate_question_mix_iff (mc : List MultipleChoiceQuestion)
    (oe : List OpenEndedQuestion) :
    validate_question_mix mc oe = true ↔ (mc.length = 7 ∧ oe.length = 3) := by
  simp [validate_question_mix]

/-- When `validate_assessment` reports no errors, constructing the assessment
succeeds: the pydantic model checks follow from the absence of errors. -/
theorem create_ok_of_no_errors (level : Int) (mc : List MultipleChoiceQuestion)
    (oe : List OpenEndedQuestion) (bg new_id generated_at : Str)
    (h : (validate_assessment level mc oe bg).errors = []) :
    ∃ a, create_assessment_from_questions level mc oe bg new_id generated_at = .ok a := by
  have herr : (validate_assessment level mc oe bg).errors = validationErrors level mc oe :=
    rfl
  have hvalid : (validate_assessment level mc oe bg).valid = true := by
    show (validationErrors level mc oe).isEmpty = true
    rw [List.isEmpty_iff, ← herr]
    exact h
  rw [herr, validationErrors] at h
  have hparts := List.append_eq_nil.mp h
  have hpartsAB := List.append_eq_nil.mp hparts.1
  have hmix : validate_question_mix mc oe = true := by
    cases hq : validate_question_mix mc oe
    · have := hpartsAB.1
      rw [hq] at this
      simp at this
    · rfl
  have hdiv : ¬ ((get_modules_covered mc oe).length < 5) := by
    intro hlt
    have := hpartsAB.2
    rw [if_pos hlt] at this
    simp at this
  have hlev : level = 1 ∨ level = 2 ∨ level = 3 ∨ level = 4 := by
    by_cases hl : level = 1 ∨ level = 2 ∨ level = 3 ∨ level = 4
    · exact hl
    · have := hparts.2
      rw [if_neg hl] at this
      simp at this
  have hlens := (validate_question_mix_iff mc oe).mp hmix
  have hlev1 : 1 ≤ level := by
    rcases hlev with h1 | h1 | h1 | h1 <;> rw [h1] <;> norm_num
  have hlev4 : level ≤ 4 := by
    rcases hlev with h1 | h1 | h1 | h1 <;> rw [h1] <;> norm_num
  have hge : 5 ≤ (get_modules_covered mc oe).length := Nat.le_of_not_lt hdiv
  have hmods : (validate_assessment level mc oe bg).modules_covered =
      get_modules_covered mc oe := rfl
  have hpyd : pydAssessment
      { assessment_id := new_id, level := level,
        multiple_choice_questions := mc, open_ended_questions := oe,
        generated_at := generated_at, user_background := bg,
        modules_covered := (validate_assessment level mc oe bg).modules_covered,
        metadata := none } = true := by
    rw [pydAssessment]
    simp only [hmods]
    rw [dedupStrs_eq_self (get_modules_covered_nodup mc oe)]
    simp [hlev1, hlev4, hlens.1, hlens.2, hge]
  simp only [create_assessment_from_questions, hvalid, Bool.not_true, hpyd,
    Bool.false_eq_true, if_false, if_true]
  exact ⟨_, rfl⟩

/-- C1: `validate_assessment` is valid exactly when its error list is empty;
a wrong question mix, fewer than 5 distinct modules, or a level outside 1..4
each contribute their error; duplicate question text and a blank background
contribute only warnings; `create_assessment_from_questions` raises exactly
when an error is present, and succeeds whenever the error list is empty,
warnings notwithstanding. -/
theorem claim1_validation_gates (level : Int) (mc : List MultipleChoiceQuestion)
    (oe : List OpenEndedQuestion) (bg new_id generated_at : Str) :
    ((validate_assessment level mc oe bg).valid = true ↔
      (validate_assessment level mc oe bg).errors = []) ∧
    (¬ (mc.length = 7 ∧ oe.length = 3) →
      mixErrorMsg mc.length oe.length ∈ (validate_assessment level mc oe bg).errors) ∧
    ((get_modules_covered mc oe).length < 5 →
      diversityErrorMsg (get_modules_covered mc oe) ∈
        (validate_assessment level mc oe bg).errors) ∧
    (¬ (level = 1 ∨ level = 2 ∨ level = 3 ∨ level = 4) →
      levelErrorMsg level ∈ (validate_assessment level mc oe bg).errors) ∧
    (validate_unique_questions mc oe = false →
      str "Duplicate question text detected" ∈
        (validate_assessment level mc oe bg).warnings) ∧
    (trimStr bg = [] →
      str "Empty user background provided" ∈
        (validate_assessment level mc oe bg).warnings) ∧
    ((validate_assessment level mc oe bg).errors ≠ [] →
      ∃ msg, create_assessment_from_questions level mc oe bg new_id generated_at =
        .error msg) ∧
    ((validate_assessment level mc oe bg).errors = [] →
      ∃ a, create_assessment_from_questions level mc oe bg new_id generated_at =
        .ok a) := by
  have herr : (validate_assessment level mc oe bg).errors = validationErrors level mc oe :=
    rfl
  have hval : (validate_assessment level mc oe bg).valid =
      (validationErrors level mc oe).isEmpty := rfl
  have hiff : (validate_assessment level mc oe bg).valid = true ↔
      (validate_assessment level mc oe bg).errors = [] := by
    rw [hval, herr, List.isEmpty_iff]
  refine ⟨hiff, ?_, ?_, ?_, ?_, ?_, ?_, ?_⟩
  · intro h
    have hmix : validate_question_mix mc oe = false := by
      cases hq : validate_question_mix mc oe
      · rfl
      · exact absurd ((validate_question_mix_iff mc oe).mp hq) h
    rw [herr, validationErrors, hmix]
    simp
  · intro h
    rw [herr, validationErrors]
    simp [h]
  · intro h
    rw [herr, validationErrors]
    simp [h]
  · intro h
    show _ ∈ validationWarnings mc oe bg
    rw [validationWarnings, h]
    simp
  · intro h
    show _ ∈ validationWarnings mc oe bg
    rw [validationWarnings, h]
    simp
  · intro h
    have hfalse : (validate_assessment level mc oe bg).valid = false := by
      cases hq : (validate_assessment level mc oe bg).valid
      · rfl
      · exact absurd (hiff.mp hq) h
    simp only [create_assessment_from_questions, hfalse, Bool.not_false, if_true]
    exact ⟨_, rfl⟩
  · exact create_ok_of_no_errors level mc oe bg new_id generated_at

/-- C2 counterexample: an assessment whose open-ended list repeats, up to
case, a multiple-choice question's text is nevertheless constructed
successfully by `create_assessment_from_questions`; uniqueness is not a
construction-time invariant. -/
theorem claim2_counterexample :
    validate_unique_questions sampleMC dupOE = false ∧
    isOkE (create_assessment_from_questions 2 sampleMC dupOE
      (str "Sample background") (str "id-1") (str "2025-11-06T12:00:00")) = true := by
  decide

/-- C2 amended: duplicate question text across the two lists yields only the
warning "Duplicate question text detected" from `validate_assessment`; when no
error is present (mix, diversity, and level checks pass) construction still
succeeds despite the duplicate. -/
theorem claim2_duplicates_only_warn (level : Int) (mc : List MultipleChoiceQuestion)
    (oe : List OpenEndedQuestion) (bg new_id generated_at : Str)
    (hdup : validate_unique_questions mc oe = false) :
    str "Duplicate question text detected" ∈
      (validate_assessment level mc oe bg).warnings ∧
    ((validate_assessment level mc oe bg).errors = [] →
      ∃ a, create_assessment_from_questions level mc oe bg new_id generated_at =
        .ok a) := by
  constructor
  · show _ ∈ validationWarnings mc oe bg
    rw [validationWarnings, hdup]
    simp
  · exact create_ok_of_no_errors level mc oe bg new_id generated_at

/-- C2 amended, witnessed at the concrete duplicate-bearing assessment. -/
theorem claim2_duplicates_only_warn_witness :
    str "Duplicate question text detected" ∈
      (validate_assessment 2 sampleMC dupOE (str "Sample background")).warnings :=
  (claim2_duplicates_only_warn 2 sampleMC dupOE (str "Sample background")
    (str "id-1") (str "2025-11-06T12:00:00") (by decide)).1

/-- C3: evaluated behaviour of the retry wrapper.  An access-denied error is
re-raised at once with no sleeps; throttling on the first two attempts then a
success yields the success after backoff sleeps of 1s and 2s; but throttling
on all three attempts re-raises the third `ClientError` (after the same two
sleeps) rather than raising the distinct retries-exhausted `RuntimeError` —
the `RuntimeError` after the loop is unreachable, contradicting the claimed
(and documented) distinct exhaustion failure. -/
theorem claim3_retry_behaviour :
    retry_with_backoff alwaysDenied =
      .raisedClient S3ErrorCode.accessDenied (str "Access Denied") [] ∧
    retry_with_backoff throttledTwice = .ok () [1, 2] ∧
    retry_with_backoff alwaysThrottled =
      .raisedClient S3ErrorCode.throttling (str "Rate exceeded") [1, 2] := by
  decide

/-- The post-loop `RuntimeError` branch of the retry wrapper is dead code: no
sequence of call outcomes makes the 3-attempt wrapper raise it. -/
theorem retry_runtime_error_unreachable {a : Type} (calls : Nat → CallOutcome a)
    (msg : Str) (sleeps : List Nat) :
    retry_with_backoff calls ≠ .raisedRuntime msg sleeps := by
  rw [retry_with_backoff]
  rw [retryFrom]
  cases calls 0 with
  | ok v => simp
  | clientError code m =>
    by_cases hp : isPermanentCode code = true
    · simp [hp]
    · simp only [hp]
      by_cases ht : (isTransientCode code && 0 + 1 < 3 : Bool) = true
      · simp only [ht, if_true, if_false, Bool.false_eq_true]
        rw [retryFrom]
        cases calls 1 with
        | ok v => simp
        | clientError code1 m1 =>
          by_cases hp1 : isPermanentCode code1 = true
          · simp [hp1]
          · simp only [hp1]
            by_cases ht1 : (isTransientCode code1 && 1 + 1 < 3 : Bool) = true
            · simp only [ht1, if_true, if_false, Bool.false_eq_true]
              rw [retryFrom]
              cases calls 2 with
              | ok v => simp
              | clientError code2 m2 =>
                by_cases hp2 : isPermanentCode code2 = true
                · simp [hp2]
                · have ht2 : (isTransientCode code2 && 2 + 1 < 3 : Bool) = false := by
                    simp
                  simp [hp2, ht2]
            · have hf1 : isTransientCode code1 = false := by
                revert ht1
                cases isTransientCode code1 <;> simp
              simp [hf1]
      · have hf : isTransientCode code = false := by
          revert ht
          cases isTransientCode code <;> simp
        simp [hf]

/-- Strings encode-decode as themselves, listwise. -/
theorem optionMapM_asStr (l : List Str) :
    optionMapM asStr (l.map Json.str) = some l := by
  induction l with
  | nil => rfl
  | cons x xs ih => simp [optionMapM, asStr, ih]

/-- `asStrList` inverts the string-array encoding. -/
theorem asStrList_map (l : List Str) :
    asStrList (Json.arr (l.map Json.str)) = some l := by
  simp [asStrList, optionMapM_asStr]

/-- Difficulty round-trips through its serialisation. -/
theorem decodeDifficulty_toStr (d : Difficulty) :
    decodeDifficulty (Json.str d.toStr) = some d := by
  cases d <;> rfl

/-- Experience level round-trips through its serialisation. -/
theorem decodeExperience_toStr (e : ExperienceLevel) :
    decodeExperience (Json.str e.toStr) = some e := by
  cases e <;> rfl

/-- A multiple-choice question round-trips when its pydantic checks hold. -/
theorem decodeMC_encodeMC (q : MultipleChoiceQuestion) (h : pydMC q = true) :
    decodeMC (encodeMC q) = some q := by
  obtain ⟨qt, opts, idx, ex, ms, df⟩ := q
  have hb : decodeMC (encodeMC ⟨qt, opts, idx, ex, ms, df⟩) =
      (match (some qt : Option Str), asStrList (Json.arr (opts.map Json.str)),
             (some idx : Option Int), (some ex : Option Str), (some ms : Option Str),
             decodeDifficulty (Json.str df.toStr) with
       | some a1, some a2, some a3, some a4, some a5, some a6 =>
         if pydMC ⟨a1, a2, a3, a4, a5, a6⟩ then
           some (⟨a1, a2, a3, a4, a5, a6⟩ : MultipleChoiceQuestion)
         else none
       | _, _, _, _, _, _ => none) := rfl
  rw [hb, asStrList_map, decodeDifficulty_toStr]
  simp [h]

/-- An open-ended question round-trips when its pydantic checks hold. -/
theorem decodeOE_encodeOE (q : OpenEndedQuestion) (h : pydOE q = true) :
    decodeOE (encodeOE q) = some q := by
  obtain ⟨qt, kp, ec, ms, df⟩ := q
  have hb : decodeOE (encodeOE ⟨qt, kp, ec, ms, df⟩) =
      (match (some qt : Option Str), asStrList (Json.arr (kp.map Json.str)),
             (some ec : Option Str), (some ms : Option Str),
             decodeDifficulty (Json.str df.toStr) with
       | some a1, some a2, some a3, some a4, some a5 =>
         if pydOE ⟨a1, a2, a3, a4, a5⟩ then
           some (⟨a1, a2, a3, a4, a5⟩ : OpenEndedQuestion)
         else none
       | _, _, _, _, _ => none) := rfl
  rw [hb, asStrList_map, decodeDifficulty_toStr]
  simp [h]

/-- Multiple-choice lists round-trip elementwise. -/
theorem optionMapM_decodeMC (l : List MultipleChoiceQuestion)
    (h : l.all pydMC = true) :
    optionMapM decodeMC (l.map encodeMC) = some l := by
  induction l with
  | nil => rfl
  | cons x xs ih =>
    simp only [List.all_cons, Bool.and_eq_true] at h
    simp [optionMapM, decodeMC_encodeMC x h.1, ih h.2]

/-- Open-ended lists round-trip elementwise. -/
theorem optionMapM_decodeOE (l : List OpenEndedQuestion)
    (h : l.all pydOE = true) :
    optionMapM decodeOE (l.map encodeOE) = some l := by
  induction l with
  | nil => rfl
  | cons x xs ih =>
    simp only [List.all_cons, Bool.and_eq_true] at h
    simp [optionMapM, decodeOE_encodeOE x h.1, ih h.2]

/-- A background profile round-trips when its pydantic checks hold. -/
theorem decodeProfile_encodeProfile (p : UserBackgroundProfile)
    (h : pydProfile p = true) :
    decodeProfile (encodeProfile p) = some p := by
  obtain ⟨bt, el, dm, ye⟩ := p
  cases dm with
  | none =>
    cases ye with
    | none =>
      have hb : decodeProfile (encodeProfile ⟨bt, el, none, none⟩) =
          (match (some bt : Option Str), decodeExperience (Json.str el.toStr),
                 (some none : Option (Option Str)), (some none : Option (Option Int)) with
           | some a1, some a2, some a3, some a4 =>
             if pydProfile ⟨a1, a2, a3, a4⟩ then
               some (⟨a1, a2, a3, a4⟩ : UserBackgroundProfile)
             else none
           | _, _, _, _ => none) := rfl
      rw [hb, decodeExperience_toStr]
      simp [h]
    | some y =>
      have hb : decodeProfile (encodeProfile ⟨bt, el, none, some y⟩) =
          (match (some bt : Option Str), decodeExperience (Json.str el.toStr),
                 (some none : Option (Option Str)),
                 (some (some y) : Option (Option Int)) with
           | some a1, some a2, some a3, some a4 =>
             if pydProfile ⟨a1, a2, a3, a4⟩ then
               some (⟨a1, a2, a3, a4⟩ : UserBackgroundProfile)
             else none
           | _, _, _, _ => none) := rfl
      rw [hb, decodeExperience_toStr]
      simp [h]
  | some d =>
    cases ye with
    | none =>
      have hb : decodeProfile (encodeProfile ⟨bt, el, some d, none⟩) =
          (match (some bt : Option Str), decodeExperience (Json.str el.toStr),
                 (some (some d) : Option (Option Str)),
                 (some none : Option (Option Int)) with
           | some a1, some a2, some a3, some a4 =>
             if pydProfile ⟨a1, a2, a3, a4⟩ then
               some (⟨a1, a2, a3, a4⟩ : UserBackgroundProfile)
             else none
           | _, _, _, _ => none) := rfl
      rw [hb, decodeExperience_toStr]
      simp [h]
    | some y =>
      have hb : decodeProfile (encodeProfile ⟨bt, el, some d, some y⟩) =
          (match (some bt : Option Str), decodeExperience (Json.str el.toStr),
                 (some (some d) : Option (Option Str)),
                 (some (some y) : Option (Option Int)) with
           | some a1, some a2, some a3, some a4 =>
             if pydProfile ⟨a1, a2, a3, a4⟩ then
               some (⟨a1, a2, a3, a4⟩ : UserBackgroundProfile)
             else none
           | _, _, _, _ => none) := rfl
      rw [hb, decodeExperience_toStr]
      simp [h]

/-- Difficulty-distribution dicts round-trip elementwise. -/
theorem optionMapM_dist (l : List (Str × Int)) :
    optionMapM (fun p => (asInt p.2).map (fun n => (p.1, n)))
      (l.map (fun p => (p.1, Json.num p.2))) = some l := by
  induction l with
  | nil => rfl
  | cons x xs ih =>
    obtain ⟨k, v⟩ := x
    simp only [List.map_cons, optionMapM]
    rw [ih]
    rfl

/-- `decodeDistribution` inverts the distribution encoding. -/
theorem decodeDistribution_map (l : List (Str × Int)) :
    decodeDistribution (Json.obj (l.map (fun p => (p.1, Json.num p.2)))) = some l := by
  simp [decodeDistribution, optionMapM_dist]

/-- Assessment metadata round-trips when its checks and its optional
profile's checks hold. -/
theorem decodeMetadata_encodeMetadata (m : AssessmentMetadata)
    (h : pydMetadata m = true)
    (hp : (match m.background_profile_used with
           | none => true
           | some p => pydProfile p) = true) :
    decodeMetadata (encodeMetadata m) = some m := by
  obtain ⟨gt, kq, mq, dd, bp⟩ := m
  cases bp with
  | none =>
    have hb : decodeMetadata (encodeMetadata ⟨gt, kq, mq, dd, none⟩) =
        (match (some gt : Option Int), (some kq : Option Int),
               asStrList (Json.arr (mq.map Json.str)),
               decodeDistribution (Json.obj (dd.map (fun p => (p.1, Json.num p.2)))),
               (some none : Option (Option UserBackgroundProfile)) with
         | some a1, some a2, some a3, some a4, some a5 =>
           if pydMetadata ⟨a1, a2, a3, a4, a5⟩ then some ⟨a1, a2, a3, a4, a5⟩
           else none
         | _, _, _, _, _ => none) := rfl
    rw [hb, asStrList_map, decodeDistribution_map]
    simp [h]
  | some p =>
    have hb : decodeMetadata (encodeMetadata ⟨gt, kq, mq, dd, some p⟩) =
        (match (some gt : Option Int), (some kq : Option Int),
               asStrList (Json.arr (mq.map Json.str)),
               decodeDistribution (Json.obj (dd.map (fun p2 => (p2.1, Json.num p2.2)))),
               (decodeProfile (encodeProfile p)).map some with
         | some a1, some a2, some a3, some a4, some a5 =>
           if pydMetadata ⟨a1, a2, a3, a4, a5⟩ then some ⟨a1, a2, a3, a4, a5⟩
           else none
         | _, _, _, _, _ => none) := rfl
    have hpp : pydProfile p = true := hp
    rw [hb, asStrList_map, decodeDistribution_map, decodeProfile_encodeProfile p hpp]
    simp [h]

/-- C6: serialising a valid `Assessment` to the structured JSON encoding and
parsing that JSON back yields an object equal to the original in every field
(id, level, both question lists with all nested fields, created-at,
background, modules covered, and metadata when present). -/
theorem claim6_roundtrip (a : Assessment) (h : wellFormedAssessment a = true) :
    decodeAssessment (encodeAssessment a) = some a := by
  obtain ⟨aid, lv, mc, oe, gat, ub, mods, meta⟩ := a
  simp only [wellFormedAssessment, Bool.and_eq_true] at h
  obtain ⟨⟨⟨⟨huuid, hpyd⟩, hmc⟩, hoe⟩, hmeta⟩ := h
  cases meta with
  | none =>
    have hb : decodeAssessment (encodeAssessment ⟨aid, lv, mc, oe, gat, ub, mods, none⟩) =
        (match (some aid : Option Str), (some lv : Option Int),
               optionMapM decodeMC (mc.map encodeMC),
               optionMapM decodeOE (oe.map encodeOE),
               (some gat : Option Str), (some ub : Option Str),
               asStrList (Json.arr (mods.map Json.str)),
               (some none : Option (Option AssessmentMetadata)) with
         | some a1, some a2, some a3, some a4, some a5, some a6, some a7, some a8 =>
           if isUuidStr a1 then
             if pydAssessment ⟨a1, a2, a3, a4, a5, a6, a7, a8⟩ then
               some (⟨a1, a2, a3, a4, a5, a6, a7, a8⟩ : Assessment)
             else none
           else none
         | _, _, _, _, _, _, _, _ => none) := rfl
    rw [hb, optionMapM_decodeMC mc hmc, optionMapM_decodeOE oe hoe, asStrList_map]
    simp [huuid, hpyd]
  | some m =>
    have hm : (pydMetadata m &&
        (match m.background_profile_used with
         | none => true
         | some p => pydProfile p)) = true := hmeta
    rw [Bool.and_eq_true] at hm
    have hb : decodeAssessment (encodeAssessment ⟨aid, lv, mc, oe, gat, ub, mods, some m⟩) =
        (match (some aid : Option Str), (some lv : Option Int),
               optionMapM decodeMC (mc.map encodeMC),
               optionMapM decodeOE (oe.map encodeOE),
               (some gat : Option Str), (some ub : Option Str),
               asStrList (Json.arr (mods.map Json.str)),
               (decodeMetadata (encodeMetadata m)).map some with
         | some a1, some a2, some a3, some a4, some a5, some a6, some a7, some a8 =>
           if isUuidStr a1 then
             if pydAssessment ⟨a1, a2, a3, a4, a5, a6, a7, a8⟩ then
               some (⟨a1, a2, a3, a4, a5, a6, a7, a8⟩ : Assessment)
             else none
           else none
         | _, _, _, _, _, _, _, _ => none) := rfl
    rw [hb, optionMapM_decodeMC mc hmc, optionMapM_decodeOE oe hoe, asStrList_map,
      decodeMetadata_encodeMetadata m hm.1 hm.2]
    simp [huuid, hpyd]

/-- C6 witnessed at a concrete valid assessment carrying metadata and a
background profile. -/
theorem claim6_roundtrip_witness :
    wellFormedAssessment sampleAssessment = true ∧
    decodeAssessment (encodeAssessment sampleAssessment) = some sampleAssessment :=
  ⟨by decide, claim6_roundtrip sampleAssessment (by decide)⟩

/-- Every run of the tool returns either an error dictionary or the success
dictionary whose URIs come from the two format-specific keys under the one
shared timestamp. -/
theorem tool_cases (parsed : Option Json) (level : Int) (bucket prefixStr : Str)
    (now : Timestamp) (callsJson callsMd : Nat → CallOutcome Unit) :
    (∃ msg, upload_assessment_to_s3 parsed level bucket prefixStr now callsJson callsMd =
       toolError msg level) ∨
    (∃ j a, parsed = some j ∧ decodeAssessment j = some a ∧
       upload_assessment_to_s3 parsed level bucket prefixStr now callsJson callsMd =
         toolSuccess
           (format_s3_uri bucket (generate_s3_key prefixStr a.level now (str "json")))
           (format_s3_uri bucket (generate_s3_key prefixStr a.level now (str "markdown")))
           level now bucket prefixStr) := by
  cases parsed with
  | none => exact Or.inl ⟨str "Invalid JSON format", rfl⟩
  | some j =>
    cases hd : decodeAssessment j with
    | none =>
      refine Or.inl ⟨str "S3 upload failed: assessment validation error", ?_⟩
      simp only [upload_assessment_to_s3, hd]
    | some a =>
      cases hro1 : retry_with_backoff callsJson with
      | ok v s =>
        cases hro2 : retry_with_backoff callsMd with
        | ok v2 s2 =>
          refine Or.inr ⟨j, a, rfl, hd, ?_⟩
          simp only [upload_assessment_to_s3, hd, upload_assessment, hro1, hro2]
        | raisedClient c m s2 =>
          refine Or.inl ⟨str "S3 upload failed: " ++ m, ?_⟩
          simp only [upload_assessment_to_s3, hd, upload_assessment, hro1, hro2]
        | raisedRuntime m s2 =>
          refine Or.inl ⟨str "S3 upload failed: " ++ m, ?_⟩
          simp only [upload_assessment_to_s3, hd, upload_assessment, hro1, hro2]
      | raisedClient c m s =>
        refine Or.inl ⟨str "S3 upload failed: " ++ m, ?_⟩
        simp only [upload_assessment_to_s3, hd, upload_assessment, hro1]
      | raisedRuntime m s =>
        refine Or.inl ⟨str "S3 upload failed: " ++ m, ?_⟩
        simp only [upload_assessment_to_s3, hd, upload_assessment, hro1]

/-- C5: the structured key is
`{prefix}/level_{n}/level_{n}_{YYYYMMDD_HHMMSS}.json` and the readable key is
the same with extension `.md`; the key is a function of prefix, level,
timestamp and format only; and one tool call uploads both encodings with the
same timestamp, so its two URIs differ only in the extension. -/
theorem claim5_key_scheme (prefixStr : Str) (level : Int) (t : Timestamp)
    (parsed : Option Json) (lv : Int) (bucket : Str)
    (callsJson callsMd : Nat → CallOutcome Unit) :
    generate_s3_key prefixStr level t (str "json") =
      s3KeyBase prefixStr level t ++ str ".json" ∧
    generate_s3_key prefixStr level t (str "markdown") =
      s3KeyBase prefixStr level t ++ str ".md" ∧
    ((upload_assessment_to_s3 parsed lv bucket prefixStr t callsJson callsMd).status =
       str "success" →
     ∃ base,
       (upload_assessment_to_s3 parsed lv bucket prefixStr t
           callsJson callsMd).s3_uri_json =
         some (str "s3://" ++ bucket ++ str "/" ++ (base ++ str ".json")) ∧
       (upload_assessment_to_s3 parsed lv bucket prefixStr t
           callsJson callsMd).s3_uri_markdown =
         some (str "s3://" ++ bucket ++ str "/" ++ (base ++ str ".md"))) := by
  have hkeyj : ∀ lv2 : Int, generate_s3_key prefixStr lv2 t (str "json") =
      s3KeyBase prefixStr lv2 t ++ str ".json" := by
    intro lv2
    show s3KeyBase prefixStr lv2 t ++ str "." ++ str "json" =
      s3KeyBase prefixStr lv2 t ++ str ".json"
    rw [List.append_assoc]
    exact congrArg (fun z => s3KeyBase prefixStr lv2 t ++ z) (by decide)
  have hkeym : ∀ lv2 : Int, generate_s3_key prefixStr lv2 t (str "markdown") =
      s3KeyBase prefixStr lv2 t ++ str ".md" := by
    intro lv2
    show s3KeyBase prefixStr lv2 t ++ str "." ++ str "md" =
      s3KeyBase prefixStr lv2 t ++ str ".md"
    rw [List.append_assoc]
    exact congrArg (fun z => s3KeyBase prefixStr lv2 t ++ z) (by decide)
  refine ⟨hkeyj level, hkeym level, ?_⟩
  intro hs
  rcases tool_cases parsed lv bucket prefixStr t callsJson callsMd with
    ⟨msg, he⟩ | ⟨j, a, hp, hd, he⟩
  · rw [he] at hs
    have hs2 : str "error" = str "success" := hs
    exact absurd hs2 (by decide)
  · refine ⟨s3KeyBase prefixStr a.level t, ?_, ?_⟩
    · rw [he]
      show some (format_s3_uri bucket (generate_s3_key prefixStr a.level t (str "json"))) = _
      rw [hkeyj a.level]
      rfl
    · rw [he]
      show some (format_s3_uri bucket (generate_s3_key prefixStr a.level t (str "markdown"))) = _
      rw [hkeym a.level]
      rfl

/-- C9: the upload tool is a total function that never raises: its status is
always "error" or "success"; every failure path (JSON parse failure,
assessment validation failure, either upload failing, transiently or
permanently) yields a status-"error" dictionary carrying a message, and
success yields both URIs with no error. -/
theorem claim9_tool_never_raises (parsed : Option Json) (level : Int)
    (bucket prefixStr : Str) (now : Timestamp)
    (callsJson callsMd : Nat → CallOutcome Unit) :
    ((upload_assessment_to_s3 parsed level bucket prefixStr now
        callsJson callsMd).status = str "error" ∨
     (upload_assessment_to_s3 parsed level bucket prefixStr now
        callsJson callsMd).status = str "success") ∧
    ((upload_assessment_to_s3 parsed level bucket prefixStr now
        callsJson callsMd).status = str "error" →
      ∃ msg, (upload_assessment_to_s3 parsed level bucket prefixStr now
        callsJson callsMd).error = some msg) ∧
    ((upload_assessment_to_s3 parsed level bucket prefixStr now
        callsJson callsMd).status = str "success" →
      (∃ u, (upload_assessment_to_s3 parsed level bucket prefixStr now
        callsJson callsMd).s3_uri_json = some u) ∧
      (∃ u, (upload_assessment_to_s3 parsed level bucket prefixStr now
        callsJson callsMd).s3_uri_markdown = some u) ∧
      (upload_assessment_to_s3 parsed level bucket prefixStr now
        callsJson callsMd).error = none) ∧
    (parsed = none →
      (upload_assessment_to_s3 parsed level bucket prefixStr now
        callsJson callsMd).status = str "error") := by
  rcases tool_cases parsed level bucket prefixStr now callsJson callsMd with
    ⟨msg, he⟩ | ⟨j, a, hp, hd, he⟩
  · rw [he]
    refine ⟨Or.inl rfl, fun _ => ⟨msg, rfl⟩, fun hs => ?_, fun _ => rfl⟩
    have hs2 : str "error" = str "success" := hs
    exact absurd hs2 (by decide)
  · rw [he]
    refine ⟨Or.inr rfl, fun hs => ?_,
      fun _ => ⟨⟨_, rfl⟩, ⟨_, rfl⟩, rfl⟩, fun hp2 => ?_⟩
    · have hs2 : str "success" = str "error" := hs
      exact absurd hs2 (by decide)
    · rw [hp2] at hp
      exact absurd hp (by simp)

/-- Lowered members of a `dedupCIAux` run avoid the seen set. -/
theorem dedupCIAux_lower_not_mem :
    ∀ (l seen : List Str) (x : Str), x ∈ dedupCIAux seen l → lowerStr x ∉ seen := by
  intro l
  induction l with
  | nil => intro seen x hx; simp [dedupCIAux] at hx
  | cons m ms ih =>
    intro seen x hx
    by_cases hm : lowerStr m ∈ seen
    · rw [dedupCIAux, if_pos hm] at hx
      exact ih seen x hx
    · rw [dedupCIAux, if_neg hm] at hx
      rcases List.mem_cons.mp hx with h | h
      · exact h ▸ hm
      · intro hxs
        exact ih (lowerStr m :: seen) x h (List.mem_cons_of_mem _ hxs)

/-- The lowered output of `dedupCIAux` has no duplicates. -/
theorem dedupCIAux_lower_nodup :
    ∀ (l seen : List Str), ((dedupCIAux seen l).map lowerStr).Nodup := by
  intro l
  induction l with
  | nil => intro seen; simp [dedupCIAux]
  | cons m ms ih =>
    intro seen
    by_cases hm : lowerStr m ∈ seen
    · rw [dedupCIAux, if_pos hm]; exact ih seen
    · rw [dedupCIAux, if_neg hm]
      rw [List.map_cons]
      refine List.nodup_cons.mpr ⟨?_, ih (lowerStr m :: seen)⟩
      intro hmem
      rcases List.mem_map.mp hmem with ⟨y, hy, hly⟩
      exact dedupCIAux_lower_not_mem ms (lowerStr m :: seen) y hy
        (hly ▸ List.mem_cons_self _ _)

/-- C7 counterexample: on the overview text "level 2 module 3" the extractor
discovers that name, then pads with synthetic names including
"Level 2 Module 3", so the returned list contains a case-insensitive
duplicate — it is not case-insensitively deduplicated as claimed. -/
theorem claim7_counterexample :
    (extract_modules_from_overview [⟨str "level 2 module 3"⟩] 2).get? 0 =
      some (str "level 2 module 3") ∧
    (extract_modules_from_overview [⟨str "level 2 module 3"⟩] 2).get? 2 =
      some (str "Level 2 Module 3") ∧
    lowerStr (str "Level 2 Module 3") = str "level 2 module 3" ∧
    ¬ ((extract_modules_from_overview [⟨str "level 2 module 3"⟩] 2).map
        lowerStr).Nodup := by
  decide

/-- C7 amended: the result always has at least 6 names; the discovered names
(keyword lines truncated at the first colon or period, first occurrences
kept) are case-insensitively deduplicated and order-preserving; the result is
those names followed by synthetic `"Level {level} Module {i}"` padding up to
6 — the padding itself is appended without re-checking, so it can collide
case-insensitively with a discovered name. -/
theorem claim7_extraction (overview_results : List OverviewResult) (level : Int) :
    6 ≤ (extract_modules_from_overview overview_results level).length ∧
    ((dedupCI (rawModuleNames overview_results)).map lowerStr).Nodup ∧
    extract_modules_from_overview overview_results level =
      dedupCI (rawModuleNames overview_results) ++
        ((List.range 6).drop
          (dedupCI (rawModuleNames overview_results)).length).map
          (syntheticName level) := by
  refine ⟨?_, dedupCIAux_lower_nodup _ [], ?_⟩
  · by_cases hlen : (dedupCI (rawModuleNames overview_results)).length < 6
    · simp only [extract_modules_from_overview, hlen, if_true]
      rw [List.length_append, List.length_map, List.length_drop, List.length_range]
      omega
    · simp only [extract_modules_from_overview, hlen, if_false]
      omega
  · by_cases hlen : (dedupCI (rawModuleNames overview_results)).length < 6
    · simp only [extract_modules_from_overview, hlen, if_true]
    · simp only [extract_modules_from_overview, hlen, if_false]
      rw [List.drop_eq_nil_of_le, List.map_nil, List.append_nil]
      rw [List.length_range]
      omega

/-- `bumpKey` leaves the key list unchanged. -/
theorem bumpKey_keys (d : List (Str × Int)) (key : Str) :
    (bumpKey d key).map Prod.fst = d.map Prod.fst := by
  induction d with
  | nil => rfl
  | cons p rest ih =>
    simp only [bumpKey, List.map_cons] at *
    by_cases h : p.1 = key
    · simp only [h, if_true, ih]
    · simp only [h, if_false, ih]

/-- `bumpKey` adds to the value sum one unit per occurrence of the key. -/
theorem bumpKey_sum (d : List (Str × Int)) (key : Str) :
    ((bumpKey d key).map Prod.snd).sum =
      (d.map Prod.snd).sum + ((d.map Prod.fst).count key : Int) := by
  induction d with
  | nil => simp [bumpKey]
  | cons p rest ih =>
    simp only [bumpKey, List.map_cons, List.sum_cons] at *
    by_cases h : p.1 = key
    · have heq : (p.1 == key) = true := by
        simp only [beq_iff_eq]
        exact h
      rw [if_pos h, ih, List.count_cons, if_pos heq]
      push_cast
      ring
    · have hne : ¬ (p.1 == key) = true := by
        simp only [beq_iff_eq]
        exact h
      rw [if_neg h, ih, List.count_cons, if_neg hne]
      push_cast
      ring

/-- `bumpKey` preserves non-negativity of the values. -/
theorem bumpKey_nonneg (d : List (Str × Int)) (key : Str)
    (h : ∀ p ∈ d, 0 ≤ p.2) : ∀ p ∈ bumpKey d key, 0 ≤ p.2 := by
  intro p hp
  rcases List.mem_map.mp hp with ⟨q, hq, hpq⟩
  have hq2 := h q hq
  by_cases hk : q.1 = key
  · rw [if_pos hk] at hpq
    rw [← hpq]
    show 0 ≤ q.2 + 1
    omega
  · rw [if_neg hk] at hpq
    rw [← hpq]
    exact hq2

/-- Folding `bumpKey` over a list whose per-element key occurs exactly once in
the fixed key list preserves the keys and non-negativity and adds the list's
length to the value sum. -/
theorem foldl_bumpKey_invariant {α : Type} (f : α → Str)
    (hf : ∀ x : α,
      ([str "beginner", str "intermediate", str "advanced"].count (f x)) = 1) :
    ∀ (l : List α) (d : List (Str × Int)),
      d.map Prod.fst = [str "beginner", str "intermediate", str "advanced"] →
      (∀ p ∈ d, 0 ≤ p.2) →
      ((l.foldl (fun acc x => bumpKey acc (f x)) d).map Prod.fst =
         [str "beginner", str "intermediate", str "advanced"] ∧
       (∀ p ∈ l.foldl (fun acc x => bumpKey acc (f x)) d, 0 ≤ p.2) ∧
       ((l.foldl (fun acc x => bumpKey acc (f x)) d).map Prod.snd).sum =
         (d.map Prod.snd).sum + l.length) := by
  intro l
  induction l with
  | nil =>
    intro d hk hn
    exact ⟨hk, hn, by simp⟩
  | cons x xs ih =>
    intro d hk hn
    rw [List.foldl_cons]
    have hk2 : (bumpKey d (f x)).map Prod.fst =
        [str "beginner", str "intermediate", str "advanced"] := by
      rw [bumpKey_keys]
      exact hk
    have hn2 := bumpKey_nonneg d (f x) hn
    obtain ⟨ha, hb, hc⟩ := ih (bumpKey d (f x)) hk2 hn2
    refine ⟨ha, hb, ?_⟩
    rw [hc, bumpKey_sum, hk, hf x]
    simp only [List.length_cons]
    push_cast
    ring

/-- C10: for an assessment with its 7 multiple-choice and 3 open-ended
questions, `get_difficulty_distribution` has exactly the keys beginner,
intermediate, advanced, its values are non-negative, and the values sum
to 10. -/
theorem claim10_distribution (a : Assessment)
    (h7 : a.multiple_choice_questions.length = 7)
    (h3 : a.open_ended_questions.length = 3) :
    (get_difficulty_distribution a).map Prod.fst =
      [str "beginner", str "intermediate", str "advanced"] ∧
    (∀ p ∈ get_difficulty_distribution a, 0 ≤ p.2) ∧
    ((get_difficulty_distribution a).map Prod.snd).sum = 10 := by
  have hfdM : ∀ q : MultipleChoiceQuestion,
      ([str "beginner", str "intermediate",
        str "advanced"].count (q.difficulty.toStr)) = 1 := by
    intro q
    cases q.difficulty <;> decide
  have hfdO : ∀ q : OpenEndedQuestion,
      ([str "beginner", str "intermediate",
        str "advanced"].count (q.difficulty.toStr)) = 1 := by
    intro q
    cases q.difficulty <;> decide
  have h0k : difficultyZeroDist.map Prod.fst =
      [str "beginner", str "intermediate", str "advanced"] := by decide
  have h0n : ∀ p ∈ difficultyZeroDist, 0 ≤ p.2 := by decide
  obtain ⟨ha1, hb1, hc1⟩ := foldl_bumpKey_invariant
    (fun q : MultipleChoiceQuestion => q.difficulty.toStr) hfdM
    a.multiple_choice_questions difficultyZeroDist h0k h0n
  obtain ⟨ha2, hb2, hc2⟩ := foldl_bumpKey_invariant
    (fun q : OpenEndedQuestion => q.difficulty.toStr) hfdO
    a.open_ended_questions _ ha1 hb1
  refine ⟨ha2, hb2, ?_⟩
  have hc2b : ((get_difficulty_distribution a).map Prod.snd).sum =
      ((a.multiple_choice_questions.foldl
          (fun acc q => bumpKey acc q.difficulty.toStr) difficultyZeroDist).map
        Prod.snd).sum + a.open_ended_questions.length := hc2
  have hc1b : ((a.multiple_choice_questions.foldl
      (fun acc q => bumpKey acc q.difficulty.toStr) difficultyZeroDist).map
        Prod.snd).sum =
      (difficultyZeroDist.map Prod.snd).sum + a.multiple_choice_questions.length :=
    hc1
  rw [hc2b, hc1b, h7, h3]
  decide

/-- C10 witnessed at the concrete sample assessment. -/
theorem claim10_distribution_witness :
    (get_difficulty_distribution sampleAssessment).map Prod.fst =
      [str "beginner", str "intermediate", str "advanced"] ∧
    (∀ p ∈ get_difficulty_distribution sampleAssessment, 0 ≤ p.2) ∧
    ((get_difficulty_distribution sampleAssessment).map Prod.snd).sum = 10 :=
  claim10_distribution sampleAssessment (by decide) (by decide)
